import Mathlib

/-!
Shallow embedding of the visitor-list cleaning pipeline implemented in
`src/app.py` (functions `nationality_group`, `split_name`, `clean_gender`,
`clean_data`, and the validation loop of `generate_excel`).

A spreadsheet cell is modelled as `Option String`: `none` is an empty cell
(pandas `NaN`), `some s` a cell holding the text `s`.  The Python string
operations used by the source (`str`, `strip`, `lower`, `upper`, `title`,
slicing) are modelled on ASCII text, which covers the whole domain the
source's rules are written for.
-/

/-- Models Python `str(x)` applied to a cell value: a missing value (pandas
`NaN`, a float) stringifies to `"nan"`. -/
def pyStr : Option String → String
  | none => "nan"
  | some s => s

/-- Models `str(cell.value)` when reading a worksheet cell back with openpyxl:
an empty cell reads as Python `None`, which stringifies to `"None"`. -/
def wsStr : Option String → String
  | none => "None"
  | some s => s

/-- ASCII lower-casing of one character, as Python `str.lower` acts on ASCII. -/
def pyLowerChar (c : Char) : Char :=
  if 'A' ≤ c ∧ c ≤ 'Z' then Char.ofNat (c.toNat + 32) else c

/-- ASCII upper-casing of one character, as Python `str.upper` acts on ASCII. -/
def pyUpperChar (c : Char) : Char :=
  if 'a' ≤ c ∧ c ≤ 'z' then Char.ofNat (c.toNat - 32) else c

/-- ASCII letter test (the word-boundary notion of Python `str.title` on
ASCII text). -/
def isAsciiLetter (c : Char) : Bool :=
  if ('a' ≤ c ∧ c ≤ 'z') ∨ ('A' ≤ c ∧ c ≤ 'Z') then true else false

/-- Models Python `str.lower` on ASCII text. -/
def pyLower (s : String) : String := String.mk (s.data.map pyLowerChar)

/-- Models Python `str.upper` on ASCII text. -/
def pyUpper (s : String) : String := String.mk (s.data.map pyUpperChar)

/-- Whitespace as stripped by Python `str.strip`. -/
def isPySpace (c : Char) : Bool :=
  if c = ' ' ∨ c = '\t' ∨ c = '\n' ∨ c = '\r' then true else false

/-- Models Python `str.strip`. -/
def pyStrip (s : String) : String :=
  String.mk (((s.data.dropWhile isPySpace).reverse.dropWhile isPySpace).reverse)

/-- One step of Python `str.title`: `prevAlpha` records whether the previous
character was a letter; a letter after a non-letter is upper-cased, a letter
after a letter is lower-cased. -/
def titleAux : Bool → List Char → List Char
  | _, [] => []
  | prevAlpha, c :: cs =>
    if isAsciiLetter c then
      (if prevAlpha then pyLowerChar c else pyUpperChar c) :: titleAux true cs
    else
      c :: titleAux false cs

/-- Models Python `str.title` on ASCII text. -/
def pyTitle (s : String) : String := String.mk (titleAux false s.data)

/-- Models Python slicing `s[-4:]` (strings shorter than 4 pass through). -/
def pyLast4 (s : String) : String :=
  String.mk (s.data.drop (s.data.length - 4))

/-- Lexicographic comparison of character lists by code point, as Python
compares strings. -/
def listCharLt : List Char → List Char → Bool
  | [], [] => false
  | [], _ :: _ => true
  | _ :: _, [] => false
  | a :: as, b :: bs =>
    if a < b then true else if b < a then false else listCharLt as bs

/-- Models Python string `<`. -/
def strLt (a b : String) : Bool := listCharLt a.data b.data

/-- One raw row of the Visitor List sheet after the positional rename to the
13-column schema (step 1 of `clean_data`).  Field order follows the renamed
columns: S/N, Vehicle Plate Number, Company Full Name, Full Name As Per NRIC,
First Name, Middle and Last Name, Identification Type, IC suffix, Work Permit
Expiry Date, Nationality, PR, Gender, Mobile Number. -/
structure Row where
  sn : Option String
  vehiclePlate : Option String
  company : Option String
  fullName : Option String
  firstName : Option String
  middleLastName : Option String
  idType : Option String
  icSuffix : Option String
  permitExpiry : Option String
  nationality : Option String
  pr : Option String
  gender : Option String
  mobile : Option String
deriving DecidableEq, Repr

/-- A cleaned row, as produced by `clean_data`: the transformed columns are
definite strings, the untouched columns (`company`, `idType`, `pr`) and the
coerced date column stay nullable. -/
structure CleanedRow where
  sn : Nat
  vehiclePlate : String
  company : Option String
  fullName : String
  firstName : String
  middleLastName : String
  idType : Option String
  icSuffix : String
  permitExpiry : Option String
  nationality : String
  pr : Option String
  gender : String
  mobile : String
deriving DecidableEq, Repr

/-- Function `nationality_group` from src/app.py: the sort bucket, computed from the
raw Nationality and PR cells (stringified, stripped, lower-cased). -/
def nationality_group (r : Row) : Nat :=
  let nationality := pyLower (pyStrip (pyStr r.nationality))
  let pr_status := pyLower (pyStrip (pyStr r.pr))
  if nationality = "singapore" then 1
  else if pr_status = "yes" ∨ pr_status = "pr" then 2
  else if nationality = "malaysia" then 3
  else if nationality = "india" then 4
  else 5

/-- Splits a character list at the first space: everything before it and
everything after it. -/
def splitAtFirstSpace : List Char → List Char × List Char
  | [] => ([], [])
  | c :: cs =>
    if c = ' ' then ([], cs)
    else
      let p := splitAtFirstSpace cs
      (c :: p.1, p.2)

/-- Function `split_name` from src/app.py: strip, then split at the first space into
(first name, middle and last name); with no space the second part is empty. -/
def split_name (name : String) : String × String :=
  let t := pyStrip name
  if ' ' ∈ t.data then
    let p := splitAtFirstSpace t.data
    (String.mk p.1, String.mk p.2)
  else
    (t, "")

/-- Function `clean_gender` from src/app.py.  Note the final branch returns `val`,
which at that point is the stripped upper-cased input. -/
def clean_gender (v : Option String) : String :=
  let val := pyUpper (pyStrip (pyStr v))
  if val = "M" then "Male"
  else if val = "F" then "Female"
  else if val = "MALE" ∨ val = "FEMALE" then pyTitle val
  else val

/-- Step 2 of `clean_data`: `df.dropna(subset=df.columns[3:13], how="all")`
keeps a row iff at least one of the ten visitor-detail cells (Full Name
through Mobile Number) is non-empty. -/
def keepRow (r : Row) : Bool :=
  r.fullName.isSome || r.firstName.isSome || r.middleLastName.isSome ||
  r.idType.isSome || r.icSuffix.isSome || r.permitExpiry.isSome ||
  r.nationality.isSome || r.pr.isSome || r.gender.isSome || r.mobile.isSome

/-- Comparison in which `none` (pandas NaN) sorts after any string, per pandas default
`na_position="last"`. -/
def optStrLt (a b : Option String) : Bool :=
  match a, b with
  | some x, some y => strLt x y
  | some _, none => true
  | none, _ => false

/-- Strict comparison for step 3 of `clean_data`: sort key
(Company Full Name, SortGroup, Nationality, Full Name), ascending. -/
def rowLt (a b : Row) : Bool :=
  if optStrLt a.company b.company then true
  else if optStrLt b.company a.company then false
  else if nationality_group a < nationality_group b then true
  else if nationality_group b < nationality_group a then false
  else if optStrLt a.nationality b.nationality then true
  else if optStrLt b.nationality a.nationality then false
  else optStrLt a.fullName b.fullName

/-- Insertion keeping existing equal-key rows in front: together with
`sortRows` this is a stable ascending sort. -/
def insertRow (r : Row) : List Row → List Row
  | [] => [r]
  | x :: xs => if rowLt r x then r :: x :: xs else x :: insertRow r xs

/-- Step 3 of `clean_data`: `df.sort_values(by=["Company Full Name",
"SortGroup", "Nationality (Country Name)", "Full Name As Per NRIC"])`,
modelled as a stable insertion sort over the key of `rowLt`. -/
def sortRows (l : List Row) : List Row :=
  l.foldl (fun acc r => insertRow r acc) []

/-- Steps 2 and 3 of `clean_data` composed: the filtered, sorted table. -/
def sortedKept (rows : List Row) : List Row :=
  sortRows (rows.filter keepRow)

/-- Replaces `/` and `,` by `;` (step 5, first regex). -/
def replaceSlashComma (c : Char) : Char :=
  if c = '/' ∨ c = ',' then ';' else c

/-- Drops leading Python whitespace of a character list. -/
def lstripWs (l : List Char) : List Char := l.dropWhile isPySpace

/-- Drops trailing Python whitespace of a character list. -/
def rstripWs (l : List Char) : List Char := (l.reverse.dropWhile isPySpace).reverse

/-- Strips the pieces after the first one: every such piece loses its leading
whitespace, and every one but the last also loses its trailing whitespace. -/
def stripPiecesTail : List (List Char) → List (List Char)
  | [] => []
  | [p] => [lstripWs p]
  | p :: ps => lstripWs (rstripWs p) :: stripPiecesTail ps

/-- Step 5, second regex: every maximal `\s*;\s*` run becomes a single `;`,
i.e. whitespace adjacent to each `;` is removed. -/
def collapseSemiSpaces (l : List Char) : List Char :=
  match l.splitOn ';' with
  | [] => []
  | [p] => p
  | p :: ps => List.intercalate [';'] (rstripWs p :: stripPiecesTail ps)

/-- Step 5 of `clean_data`: vehicle-plate cell cleaning — stringify, turn
`/` and `,` into `;`, drop spaces around `;`, strip, and map the literal
`"nan"` to the empty string. -/
def cleanVehicle (v : Option String) : String :=
  let s1 := (pyStr v).data.map replaceSlashComma
  let s2 := pyStrip (String.mk (collapseSemiSpaces s1))
  if s2 = "nan" then "" else s2

/-- Step 7's synonym table, applied by exact whole-value match
(`Series.replace` with a plain dict). -/
def synLookup (s : String) : String :=
  if s = "Chinese" then "China"
  else if s = "Singaporean" then "Singapore"
  else s

/-- Step 7 of `clean_data`: synonym replacement on the raw cell, then
stringify, then title-case. -/
def cleanNationality (v : Option String) : String :=
  pyTitle (pyStr (v.map synLookup))

/-- The nationality normalization as a function of the cell text (step 7
applied to a non-empty cell). -/
def natNormalize (s : String) : String := cleanNationality (some s)

/-- Digit test. -/
def isDigitChar (c : Char) : Bool :=
  if '0' ≤ c ∧ c ≤ '9' then true else false

/-- Numeric value of a digit character. -/
def digitVal (c : Char) : Nat := c.toNat - 48

/-- Value of a digit string, most significant digit first. -/
def digitsVal (l : List Char) : Nat :=
  l.foldl (fun a c => 10 * a + digitVal c) 0

/-- Unsigned decimal literal: `digits`, `digits.digits`, `digits.` or
`.digits` (at least one digit overall); the value is truncated toward zero,
as `astype(int)` truncates. -/
def parseUnsigned (l : List Char) : Option Nat :=
  match l.dropWhile isDigitChar with
  | [] =>
    if l.takeWhile isDigitChar = [] then none
    else some (digitsVal (l.takeWhile isDigitChar))
  | '.' :: fp =>
    if fp.all isDigitChar ∧ ¬(l.takeWhile isDigitChar = [] ∧ fp = []) then
      some (digitsVal (l.takeWhile isDigitChar))
    else none
  | _ => none

/-- Models `pd.to_numeric(x, errors="coerce")` on a cell text followed by
`astype(int)`: strip, optional sign, decimal literal; anything else coerces
to NaN (`none`).  Exotic numeric forms (exponents, underscores) are outside
the domain of visitor mobile numbers and are coerced to `none` as well. -/
def parseToNumeric (s : String) : Option Int :=
  match (pyStrip s).data with
  | [] => none
  | c :: cs =>
    if c = '-' then (parseUnsigned cs).map (fun n => -(Int.ofNat n))
    else if c = '+' then (parseUnsigned cs).map (fun n => Int.ofNat n)
    else (parseUnsigned (c :: cs)).map (fun n => Int.ofNat n)

/-- Step 10 of `clean_data`:
`pd.to_numeric(df["Mobile Number"], errors="coerce").fillna(0).astype(int).astype(str)`. -/
def cleanMobile (v : Option String) : String :=
  match v with
  | none => toString (0 : Int)
  | some s =>
    match parseToNumeric s with
    | some n => toString n
    | none => toString (0 : Int)

/-- ISO-shaped date `YYYY-MM-DD`, optionally followed by a time-of-day part;
returns the ten date characters. -/
def parseIsoDate (l : List Char) : Option (List Char) :=
  match l with
  | y1 :: y2 :: y3 :: y4 :: '-' :: m1 :: m2 :: '-' :: d1 :: d2 :: rest =>
    if (isDigitChar y1 && isDigitChar y2 && isDigitChar y3 && isDigitChar y4 &&
        isDigitChar m1 && isDigitChar m2 && isDigitChar d1 && isDigitChar d2) = true
       ∧ (rest = [] ∨ rest.head? = some ' ' ∨ rest.head? = some 'T')
       ∧ 1 ≤ 10 * digitVal m1 + digitVal m2 ∧ 10 * digitVal m1 + digitVal m2 ≤ 12
       ∧ 1 ≤ 10 * digitVal d1 + digitVal d2 ∧ 10 * digitVal d1 + digitVal d2 ≤ 31
    then some [y1, y2, y3, y4, '-', m1, m2, '-', d1, d2]
    else none
  | _ => none

/-- Step 12 of `clean_data`: `pd.to_datetime(errors="coerce")` followed by
`.dt.strftime("%Y-%m-%d")`.  The lenient pandas parser is modelled on its
canonical `YYYY-MM-DD` input shape (time-of-day discarded); unparseable
input coerces to `none`. -/
def formatDate (v : Option String) : Option String :=
  match v with
  | none => none
  | some s => (parseIsoDate (pyStrip s).data).map String.mk

/-- Steps 4–12 of `clean_data` for one row: `sn` is the new serial, `doSwap`
the workbook-wide step 8 decision.  The column swap of step 8 is applied to
the raw cells before the step 9 truncation and the step 12 date coercion. -/
def transformRow (doSwap : Bool) (sn : Nat) (r : Row) : CleanedRow :=
  let ic := if doSwap then r.permitExpiry else r.icSuffix
  let expiry := if doSwap then r.icSuffix else r.permitExpiry
  let fn := pyTitle (pyStr r.fullName)
  { sn := sn
    vehiclePlate := cleanVehicle r.vehiclePlate
    company := r.company
    fullName := fn
    firstName := (split_name fn).1
    middleLastName := (split_name fn).2
    idType := r.idType
    icSuffix := pyLast4 (pyStr ic)
    permitExpiry := formatDate expiry
    nationality := cleanNationality r.nationality
    pr := r.pr
    gender := clean_gender r.gender
    mobile := cleanMobile r.mobile }

/-- Step 8's trigger, tested on the filtered, sorted table: does any IC cell,
stringified, contain a hyphen? -/
def swapNeeded (rows : List Row) : Bool :=
  rows.any (fun r => (pyStr r.icSuffix).data.contains '-')

/-- Function `clean_data` from src/app.py: filter (step 2), sort (step 3), renumber
serials 1..N (step 4), then the column transformations (steps 5–12), with
the step 8 swap decided once for the whole table. -/
def clean_data (rows : List Row) : List CleanedRow :=
  let sorted := sortedKept rows
  let doSwap := swapNeeded sorted
  (sorted.zip (List.range' 1 sorted.length)).map (fun p => transformRow doSwap p.2 p.1)

/-- The validation loop of `generate_excel` (steps 7 of that function), per
row: reads the Identification Type (G), Nationality (J) and PR (K) cells of
the written worksheet and decides whether the row is highlighted. -/
def rowHighlight (r : CleanedRow) : Bool :=
  let id_type := pyUpper (pyStrip (wsStr r.idType))
  let nationality := pyTitle (pyStrip r.nationality)
  let pr_status := pyTitle (pyStrip (wsStr r.pr))
  let h1 :=
    if id_type = "NRIC" then
      if nationality = "Singapore" ∨ (nationality ≠ "Singapore" ∧ (pr_status = "Yes" ∨ pr_status = "Pr"))
      then false else true
    else false
  let h2 :=
    if id_type = "FIN" then
      if nationality = "Singapore" ∨ pr_status = "Yes" ∨ pr_status = "Pr" then true else false
    else false
  h1 || h2

/-- The mismatch count reported by `generate_excel`. -/
def mismatchCount (l : List CleanedRow) : Nat :=
  (l.filter rowHighlight).length

/-! ### Character-level facts about the ASCII case maps -/

theorem char_eq_iff (a b : Char) : a = b ↔ a.toNat = b.toNat :=
  ⟨congrArg Char.toNat, fun h => Char.ext (UInt32.ext h)⟩

theorem toNat_ofNat_valid (n : Nat) (h : n < 55296) : (Char.ofNat n).toNat = n := by
  have hv : n.isValidChar := Or.inl h
  simp only [Char.ofNat, dif_pos hv]
  rfl

theorem mk_eq_mk (l m : List Char) : (String.mk l = String.mk m) ↔ l = m :=
  String.ext_iff

theorem pyLowerChar_toNat (a : Char) :
    (pyLowerChar a).toNat = if 65 ≤ a.toNat ∧ a.toNat ≤ 90 then a.toNat + 32 else a.toNat := by
  have hA : ('A' ≤ a) ↔ 65 ≤ a.toNat := Iff.rfl
  have hZ : (a ≤ 'Z') ↔ a.toNat ≤ 90 := Iff.rfl
  unfold pyLowerChar
  by_cases h : 'A' ≤ a ∧ a ≤ 'Z'
  · rw [if_pos h, if_pos ⟨hA.mp h.1, hZ.mp h.2⟩]
    exact toNat_ofNat_valid _ (by have := hZ.mp h.2; omega)
  · rw [if_neg h, if_neg]
    intro hc
    exact h ⟨hA.mpr hc.1, hZ.mpr hc.2⟩

theorem pyUpperChar_toNat (a : Char) :
    (pyUpperChar a).toNat = if 97 ≤ a.toNat ∧ a.toNat ≤ 122 then a.toNat - 32 else a.toNat := by
  have ha : ('a' ≤ a) ↔ 97 ≤ a.toNat := Iff.rfl
  have hz : (a ≤ 'z') ↔ a.toNat ≤ 122 := Iff.rfl
  unfold pyUpperChar
  by_cases h : 'a' ≤ a ∧ a ≤ 'z'
  · rw [if_pos h, if_pos ⟨ha.mp h.1, hz.mp h.2⟩]
    exact toNat_ofNat_valid _ (by have := hz.mp h.2; omega)
  · rw [if_neg h, if_neg]
    intro hc
    exact h ⟨ha.mpr hc.1, hz.mpr hc.2⟩

theorem isAsciiLetter_iff (a : Char) :
    isAsciiLetter a = true ↔ (97 ≤ a.toNat ∧ a.toNat ≤ 122) ∨ (65 ≤ a.toNat ∧ a.toNat ≤ 90) := by
  have h1 : (('a' ≤ a ∧ a ≤ 'z') ∨ ('A' ≤ a ∧ a ≤ 'Z')) ↔
      ((97 ≤ a.toNat ∧ a.toNat ≤ 122) ∨ (65 ≤ a.toNat ∧ a.toNat ≤ 90)) := Iff.rfl
  unfold isAsciiLetter
  by_cases h : ('a' ≤ a ∧ a ≤ 'z') ∨ ('A' ≤ a ∧ a ≤ 'Z')
  · simp only [if_pos h, true_iff]
    exact h1.mp h
  · simp only [if_neg h]
    constructor
    · intro hc
      exact absurd hc (by decide)
    · intro hc
      exact absurd (h1.mpr hc) h

theorem pyUpperChar_idem (a : Char) : pyUpperChar (pyUpperChar a) = pyUpperChar a := by
  rw [char_eq_iff, pyUpperChar_toNat (pyUpperChar a), pyUpperChar_toNat a]
  split_ifs <;> omega

theorem pyLowerChar_idem (a : Char) : pyLowerChar (pyLowerChar a) = pyLowerChar a := by
  rw [char_eq_iff, pyLowerChar_toNat (pyLowerChar a), pyLowerChar_toNat a]
  split_ifs <;> omega

theorem isAsciiLetter_pyUpperChar (a : Char) :
    isAsciiLetter (pyUpperChar a) = isAsciiLetter a := by
  rw [Bool.eq_iff_iff, isAsciiLetter_iff, isAsciiLetter_iff, pyUpperChar_toNat]
  split_ifs <;> omega

theorem isAsciiLetter_pyLowerChar (a : Char) :
    isAsciiLetter (pyLowerChar a) = isAsciiLetter a := by
  rw [Bool.eq_iff_iff, isAsciiLetter_iff, isAsciiLetter_iff, pyLowerChar_toNat]
  split_ifs <;> omega

theorem pyLowerChar_of_not_letter (a : Char) (h : isAsciiLetter a = false) :
    pyLowerChar a = a := by
  have h2 : ¬(isAsciiLetter a = true) := by
    rw [h]
    decide
  rw [isAsciiLetter_iff] at h2
  rw [char_eq_iff, pyLowerChar_toNat, if_neg]
  intro hc
  omega


theorem upperChar_eq_iff_lowerChar (a U : Char) (hU : 65 ≤ U.toNat ∧ U.toNat ≤ 90) :
    (pyUpperChar a = U ↔ pyLowerChar a = Char.ofNat (U.toNat + 32)) := by
  rw [char_eq_iff, char_eq_iff, pyUpperChar_toNat, pyLowerChar_toNat,
      toNat_ofNat_valid (U.toNat + 32) (by omega)]
  split_ifs <;> omega

/-! ### Python `str.title`: idempotence and case-insensitive word matching -/

theorem titleAux_idem (l : List Char) : ∀ b, titleAux b (titleAux b l) = titleAux b l := by
  induction l with
  | nil =>
    intro b
    rfl
  | cons c cs ih =>
    intro b
    by_cases hc : isAsciiLetter c = true
    · have hcu : isAsciiLetter (pyUpperChar c) = true := by
        rw [isAsciiLetter_pyUpperChar]
        exact hc
      have hcl : isAsciiLetter (pyLowerChar c) = true := by
        rw [isAsciiLetter_pyLowerChar]
        exact hc
      cases b
      · simp [titleAux, hc, hcu, pyUpperChar_idem, ih true]
      · simp [titleAux, hc, hcl, pyLowerChar_idem, ih true]
    · simp [titleAux, hc, ih false]

theorem pyTitle_idem (s : String) : pyTitle (pyTitle s) = pyTitle s := by
  show String.mk (titleAux false (titleAux false s.data)) = String.mk (titleAux false s.data)
  rw [titleAux_idem]

theorem titleAux_true_eq_lower (l : List Char) :
    ∀ tgt : List Char, (∀ c ∈ tgt, 97 ≤ c.toNat ∧ c.toNat ≤ 122) →
      (titleAux true l = tgt ↔ l.map pyLowerChar = tgt) := by
  induction l with
  | nil =>
    intro tgt _
    exact Iff.rfl
  | cons c cs ih =>
    intro tgt hlow
    cases tgt with
    | nil =>
      apply iff_of_false
      · intro h
        by_cases hc : isAsciiLetter c = true <;> simp [titleAux, hc] at h
      · intro h
        simp at h
    | cons t ts =>
      have ht : isAsciiLetter t = true := by
        rw [isAsciiLetter_iff]
        left
        exact hlow t (List.mem_cons_self t ts)
      by_cases hc : isAsciiLetter c = true
      · have h2 := ih ts (fun x hx => hlow x (List.mem_cons_of_mem t hx))
        simp [titleAux, hc, h2]
      · have hcf : isAsciiLetter c = false := by
          cases h' : isAsciiLetter c
          · rfl
          · exact absurd h' hc
        apply iff_of_false
        · intro h
          have e : titleAux true (c :: cs) = c :: titleAux false cs := by
            simp [titleAux, hc]
          rw [e] at h
          injection h with h1 _
          rw [h1, ht] at hcf
          exact absurd hcf (by decide)
        · intro h
          have e : List.map pyLowerChar (c :: cs) = pyLowerChar c :: List.map pyLowerChar cs := rfl
          rw [e] at h
          injection h with h1 _
          rw [pyLowerChar_of_not_letter c hcf] at h1
          rw [h1, ht] at hcf
          exact absurd hcf (by decide)

theorem pyTitle_eq_word_iff (s : String) (U : Char) (rest : List Char)
    (hU : 65 ≤ U.toNat ∧ U.toNat ≤ 90)
    (hrest : ∀ c ∈ rest, 97 ≤ c.toNat ∧ c.toNat ≤ 122) :
    (pyTitle s = String.mk (U :: rest) ↔
      pyLower s = String.mk (Char.ofNat (U.toNat + 32) :: rest)) := by
  have hUalpha : isAsciiLetter U = true := by
    rw [isAsciiLetter_iff]
    right
    exact hU
  obtain ⟨l⟩ := s
  show String.mk (titleAux false l) = _ ↔ String.mk (List.map pyLowerChar l) = _
  rw [mk_eq_mk, mk_eq_mk]
  cases l with
  | nil =>
    apply iff_of_false
    · intro h
      exact List.noConfusion h
    · intro h
      exact List.noConfusion h
  | cons c cs =>
    by_cases hc : isAsciiLetter c = true
    · have h2 := titleAux_true_eq_lower cs rest hrest
      have h3 := upperChar_eq_iff_lowerChar c U hU
      have e1 : titleAux false (c :: cs) = pyUpperChar c :: titleAux true cs := by
        simp [titleAux, hc]
      have e2 : List.map pyLowerChar (c :: cs) = pyLowerChar c :: List.map pyLowerChar cs := rfl
      rw [e1, e2, List.cons.injEq, List.cons.injEq]
      exact and_congr h3 h2
    · have hcf : isAsciiLetter c = false := by
        cases h' : isAsciiLetter c
        · rfl
        · exact absurd h' hc
      apply iff_of_false
      · intro h
        have e : titleAux false (c :: cs) = c :: titleAux false cs := by
          simp [titleAux, hc]
        rw [e] at h
        injection h with h1 _
        rw [h1, hUalpha] at hcf
        exact absurd hcf (by decide)
      · intro h
        have e : List.map pyLowerChar (c :: cs) = pyLowerChar c :: List.map pyLowerChar cs := rfl
        rw [e] at h
        injection h with h1 _
        rw [pyLowerChar_of_not_letter c hcf] at h1
        have halpha : isAsciiLetter (Char.ofNat (U.toNat + 32)) = true := by
          rw [isAsciiLetter_iff, toNat_ofNat_valid _ (by omega)]
          left
          omega
        rw [h1, halpha] at hcf
        exact absurd hcf (by decide)

theorem pyTitle_eq_Yes (s : String) : pyTitle s = "Yes" ↔ pyLower s = "yes" := by
  have h := pyTitle_eq_word_iff s 'Y' ['e', 's'] (by decide) (by decide)
  have e1 : String.mk ['Y', 'e', 's'] = "Yes" := rfl
  have e2 : String.mk (Char.ofNat (('Y' : Char).toNat + 32) :: ['e', 's']) = "yes" := by decide
  rw [e1, e2] at h
  exact h

theorem pyTitle_eq_Pr (s : String) : pyTitle s = "Pr" ↔ pyLower s = "pr" := by
  have h := pyTitle_eq_word_iff s 'P' ['r'] (by decide) (by decide)
  have e1 : String.mk ['P', 'r'] = "Pr" := rfl
  have e2 : String.mk (Char.ofNat (('P' : Char).toNat + 32) :: ['r']) = "pr" := by decide
  rw [e1, e2] at h
  exact h

/-! ### Facts about digits, stripping and the numeric coercion -/

theorem isDigitChar_iff (c : Char) :
    isDigitChar c = true ↔ 48 ≤ c.toNat ∧ c.toNat ≤ 57 := by
  have h1 : (('0' ≤ c ∧ c ≤ '9')) ↔ (48 ≤ c.toNat ∧ c.toNat ≤ 57) := Iff.rfl
  unfold isDigitChar
  by_cases h : '0' ≤ c ∧ c ≤ '9'
  · simp only [if_pos h, true_iff]
    exact h1.mp h
  · simp only [if_neg h]
    constructor
    · intro hc
      exact absurd hc (by decide)
    · intro hc
      exact absurd (h1.mpr hc) h

theorem isPySpace_of_digit (c : Char) (h : isDigitChar c = true) :
    isPySpace c = false := by
  rw [isDigitChar_iff] at h
  unfold isPySpace
  rw [if_neg]
  rintro (h1 | h1 | h1 | h1) <;> rw [char_eq_iff] at h1
  · rw [show (' ' : Char).toNat = 32 from rfl] at h1
    omega
  · rw [show ('\t' : Char).toNat = 9 from rfl] at h1
    omega
  · rw [show ('\n' : Char).toNat = 10 from rfl] at h1
    omega
  · rw [show ('\r' : Char).toNat = 13 from rfl] at h1
    omega

theorem dropWhile_all_false {α : Type} {p : α → Bool} (l : List α)
    (h : ∀ c ∈ l, p c = false) : l.dropWhile p = l := by
  cases l with
  | nil => rfl
  | cons c cs =>
    rw [List.dropWhile_cons, h c (List.mem_cons_self c cs)]
    simp

theorem pyStrip_data_of_no_space (l : List Char) (h : ∀ c ∈ l, isPySpace c = false) :
    (pyStrip (String.mk l)).data = l := by
  show ((l.dropWhile isPySpace).reverse.dropWhile isPySpace).reverse = l
  rw [dropWhile_all_false l h,
      dropWhile_all_false l.reverse (fun c hc => h c (List.mem_reverse.mp hc)),
      List.reverse_reverse]

theorem parseUnsigned_digits (l : List Char) (hne : l ≠ [])
    (hdig : ∀ c ∈ l, isDigitChar c = true) :
    parseUnsigned l = some (digitsVal l) := by
  have h1 : l.takeWhile isDigitChar = l := List.takeWhile_eq_self_iff.mpr hdig
  have h2 : l.dropWhile isDigitChar = [] := List.dropWhile_eq_nil_iff.mpr hdig
  unfold parseUnsigned
  rw [h2, h1, if_neg hne]

theorem parseToNumeric_digits (l : List Char) (hne : l ≠ [])
    (hdig : ∀ c ∈ l, isDigitChar c = true) :
    parseToNumeric (String.mk l) = some (Int.ofNat (digitsVal l)) := by
  have hstrip : (pyStrip (String.mk l)).data = l :=
    pyStrip_data_of_no_space l (fun c hc => isPySpace_of_digit c (hdig c hc))
  cases l with
  | nil => exact absurd rfl hne
  | cons c cs =>
    have hc := hdig c (List.mem_cons_self c cs)
    have hcm : c ≠ '-' := by
      intro he
      rw [isDigitChar_iff] at hc
      rw [he] at hc
      exact absurd hc (by decide)
    have hcp : c ≠ '+' := by
      intro he
      rw [isDigitChar_iff] at hc
      rw [he] at hc
      exact absurd hc (by decide)
    unfold parseToNumeric
    rw [hstrip]
    show (if c = '-' then (parseUnsigned cs).map (fun n => -(Int.ofNat n))
      else if c = '+' then (parseUnsigned cs).map (fun n => Int.ofNat n)
      else (parseUnsigned (c :: cs)).map (fun n => Int.ofNat n)) =
        some (Int.ofNat (digitsVal (c :: cs)))
    rw [if_neg hcm, if_neg hcp,
        parseUnsigned_digits (c :: cs) (by intro h; exact List.noConfusion h) hdig]
    rfl

/-! ### Decomposition of `clean_data` into its stages -/

theorem swapNeeded_iff (l : List Row) :
    swapNeeded l = true ↔ ∃ r ∈ l, '-' ∈ (pyStr r.icSuffix).data := by
  unfold swapNeeded
  rw [List.any_eq_true]
  apply exists_congr
  intro r
  apply and_congr Iff.rfl
  show List.elem '-' (pyStr r.icSuffix).data = true ↔ _
  exact List.elem_iff

theorem map_zip_fst {α β γ : Type} (f : α → γ) (l : List α) (m : List β)
    (h : l.length ≤ m.length) :
    (l.zip m).map (fun p => f p.1) = l.map f := by
  have h2 : (l.zip m).map Prod.fst = l := List.map_fst_zip l m h
  calc (l.zip m).map (fun p => f p.1)
      = ((l.zip m).map Prod.fst).map f := by
        rw [List.map_map]
        rfl
    _ = l.map f := by
        rw [h2]

theorem map_zip_snd {α β : Type} (l : List α) (m : List β) (h : m.length ≤ l.length) :
    (l.zip m).map (fun p => p.2) = m := by
  have h2 := List.map_snd_zip l m h
  exact h2

theorem clean_data_eq (rows : List Row) :
    clean_data rows =
      ((sortedKept rows).zip (List.range' 1 (sortedKept rows).length)).map
        (fun p => transformRow (swapNeeded (sortedKept rows)) p.2 p.1) := rfl

theorem length_clean_data (rows : List Row) :
    (clean_data rows).length = (sortedKept rows).length := by
  rw [clean_data_eq, List.length_map, List.length_zip, List.length_range', Nat.min_self]

theorem clean_data_map_proj {γ : Type} (rows : List Row) (f : CleanedRow → γ) (g : Row → γ)
    (hfg : ∀ r n, f (transformRow (swapNeeded (sortedKept rows)) n r) = g r) :
    (clean_data rows).map f = (sortedKept rows).map g := by
  rw [clean_data_eq, List.map_map]
  have he : (f ∘ fun p : Row × Nat => transformRow (swapNeeded (sortedKept rows)) p.2 p.1) =
      fun p : Row × Nat => g p.1 := by
    funext p
    exact hfg p.1 p.2
  rw [he]
  exact map_zip_fst g _ _ (by rw [List.length_range'])

theorem clean_data_icSuffix (rows : List Row) :
    (clean_data rows).map (fun c => c.icSuffix) =
      (sortedKept rows).map (fun r =>
        pyLast4 (pyStr (if swapNeeded (sortedKept rows) then r.permitExpiry else r.icSuffix))) :=
  clean_data_map_proj rows _ _ (fun _ _ => rfl)

theorem clean_data_permitExpiry (rows : List Row) :
    (clean_data rows).map (fun c => c.permitExpiry) =
      (sortedKept rows).map (fun r =>
        formatDate (if swapNeeded (sortedKept rows) then r.icSuffix else r.permitExpiry)) :=
  clean_data_map_proj rows _ _ (fun _ _ => rfl)

theorem clean_data_sn (rows : List Row) :
    (clean_data rows).map (fun c => c.sn) = List.range' 1 (sortedKept rows).length := by
  rw [clean_data_eq, List.map_map]
  have he : ((fun c : CleanedRow => c.sn) ∘
      fun p : Row × Nat => transformRow (swapNeeded (sortedKept rows)) p.2 p.1) =
      fun p : Row × Nat => p.2 := rfl
  rw [he]
  exact map_zip_snd _ _ (by rw [List.length_range'])

theorem isSome_eq_false_iff {α : Type} (o : Option α) : o.isSome = false ↔ o = none := by
  cases o <;> simp

/-! ### Concrete rows used by counterexamples and witnesses -/

/-- A raw row entered with nationality "Singaporean" (adjectival form). -/
def rowSgp : Row :=
  { sn := none, vehiclePlate := none, company := some "Acme",
    fullName := some "Bob", firstName := none, middleLastName := none, idType := none,
    icSuffix := none, permitExpiry := none, nationality := some "Singaporean", pr := none,
    gender := none, mobile := none }

/-- A raw row with nationality "Malaysia". -/
def rowMys : Row :=
  { sn := none, vehiclePlate := none, company := some "Acme",
    fullName := some "Alice", firstName := none, middleLastName := none, idType := none,
    icSuffix := none, permitExpiry := none, nationality := some "Malaysia", pr := none,
    gender := none, mobile := none }

/-- A raw row whose organization is set but whose visitor-detail cells are all
empty. -/
def orgOnlyRow : Row :=
  { sn := none, vehiclePlate := none, company := some "Acme",
    fullName := none, firstName := none, middleLastName := none, idType := none,
    icSuffix := none, permitExpiry := none, nationality := none, pr := none,
    gender := none, mobile := none }

/-- A raw row whose organization is empty but whose full name is set. -/
def nameOnlyRow : Row :=
  { sn := none, vehiclePlate := none, company := none,
    fullName := some "Bob", firstName := none, middleLastName := none, idType := none,
    icSuffix := none, permitExpiry := none, nationality := none, pr := none,
    gender := none, mobile := none }

/-- A raw row with an empty full-name cell that survives the filter thanks to
its mobile number. -/
def mobileOnlyRow : Row :=
  { sn := none, vehiclePlate := none, company := none,
    fullName := none, firstName := none, middleLastName := none, idType := none,
    icSuffix := none, permitExpiry := none, nationality := none, pr := none,
    gender := none, mobile := some "91234567" }

/-- A raw row whose IC column holds a date (the swapped-columns situation). -/
def icRow1 : Row :=
  { sn := none, vehiclePlate := none, company := some "Acme",
    fullName := some "Bob", firstName := none, middleLastName := none,
    idType := some "WORK PERMIT", icSuffix := some "2024-05-01",
    permitExpiry := some "123A", nationality := some "Malaysia", pr := none,
    gender := none, mobile := none }

/-- A cleaned NRIC row with nationality Malaysia and residency "y". -/
def nricRowY : CleanedRow :=
  { sn := 1, vehiclePlate := "", company := some "Acme", fullName := "Bob", firstName := "Bob",
    middleLastName := "", idType := some "NRIC", icSuffix := "123A", permitExpiry := none,
    nationality := "Malaysia", pr := some "y", gender := "Male", mobile := "91234567" }

/-- A cleaned NRIC row with nationality Malaysia and empty residency. -/
def nricRowEmpty : CleanedRow :=
  { sn := 1, vehiclePlate := "", company := some "Acme", fullName := "Bob", firstName := "Bob",
    middleLastName := "", idType := some "NRIC", icSuffix := "123A", permitExpiry := none,
    nationality := "Malaysia", pr := some "", gender := "Male", mobile := "91234567" }

/-- A cleaned WORK PERMIT row with an empty permit-expiry cell. -/
def wpRow : CleanedRow :=
  { sn := 1, vehiclePlate := "", company := some "Acme", fullName := "Raj", firstName := "Raj",
    middleLastName := "", idType := some "WORK PERMIT", icSuffix := "123A", permitExpiry := none,
    nationality := "India", pr := some "", gender := "Male", mobile := "91234567" }

/-- Helper: any row whose identification type reads "WORK PERMIT" is never
highlighted, because the validation loop only tests "NRIC" and "FIN". -/
theorem rowHighlight_wp_false (r : CleanedRow)
    (h : pyUpper (pyStrip (wsStr r.idType)) = "WORK PERMIT") :
    rowHighlight r = false := by
  simp [rowHighlight, h]

/-! ### Claims -/

/-- C1 counterexample: the claim says residency "y" is affirmative, so the
NRIC/Malaysia/"y" row is not flagged; the code title-cases the residency cell
to "Y", which is not in ["Yes", "Pr"], and flags the row. -/
theorem c1_counterexample :
    nricRowY.idType = some "NRIC" ∧ nricRowY.nationality = "Malaysia" ∧
    nricRowY.pr = some "y" ∧ rowHighlight nricRowY = true := by
  decide

/-- C1 (amended): for a row whose identification type reads "NRIC", the
validation flags it iff the nationality (trimmed, title-cased) is not
"Singapore" and the residency cell is not case-insensitively "yes" or "pr";
"y" is not an affirmative token. -/
theorem c1_amended (r : CleanedRow)
    (h : pyUpper (pyStrip (wsStr r.idType)) = "NRIC") :
    (rowHighlight r = true ↔
      (pyTitle (pyStrip r.nationality) ≠ "Singapore" ∧
       pyLower (pyStrip (wsStr r.pr)) ≠ "yes" ∧
       pyLower (pyStrip (wsStr r.pr)) ≠ "pr")) := by
  by_cases hn : pyTitle (pyStrip r.nationality) = "Singapore"
  · simp [rowHighlight, h, hn]
  · by_cases hy : pyTitle (pyStrip (wsStr r.pr)) = "Yes"
    · have hyl := (pyTitle_eq_Yes (pyStrip (wsStr r.pr))).mp hy
      simp [rowHighlight, h, hn, hy, hyl]
    · by_cases hp : pyTitle (pyStrip (wsStr r.pr)) = "Pr"
      · have hpl := (pyTitle_eq_Pr (pyStrip (wsStr r.pr))).mp hp
        simp [rowHighlight, h, hn, hp, hpl]
      · have hyl : pyLower (pyStrip (wsStr r.pr)) ≠ "yes" :=
          fun hcon => hy ((pyTitle_eq_Yes (pyStrip (wsStr r.pr))).mpr hcon)
        have hpl : pyLower (pyStrip (wsStr r.pr)) ≠ "pr" :=
          fun hcon => hp ((pyTitle_eq_Pr (pyStrip (wsStr r.pr))).mpr hcon)
        simp [rowHighlight, h, hn, hy, hp, hyl, hpl]

/-- C1 witness: the amended rule applied to the NRIC/Malaysia/empty-residency
row (which is flagged). -/
theorem c1_amended_witness :
    rowHighlight nricRowEmpty = true ↔
      (pyTitle (pyStrip nricRowEmpty.nationality) ≠ "Singapore" ∧
       pyLower (pyStrip (wsStr nricRowEmpty.pr)) ≠ "yes" ∧
       pyLower (pyStrip (wsStr nricRowEmpty.pr)) ≠ "pr") :=
  c1_amended nricRowEmpty (by decide)

/-- C2 counterexample: a WORK PERMIT row with an empty permit-expiry cell is
not flagged, contrary to the claim. -/
theorem c2_counterexample :
    wpRow.idType = some "WORK PERMIT" ∧ wpRow.permitExpiry = none ∧
    rowHighlight wpRow = false := by
  decide

/-- C2 (amended): the validation loop performs no check at all for WORK
PERMIT rows — they are never flagged, whatever their permit-expiry cell, and
contribute nothing to the mismatch count. -/
theorem c2_amended (rs : List CleanedRow)
    (h : ∀ r ∈ rs, pyUpper (pyStrip (wsStr r.idType)) = "WORK PERMIT") :
    (∀ r ∈ rs, rowHighlight r = false) ∧ mismatchCount rs = 0 := by
  have key : ∀ r ∈ rs, rowHighlight r = false := fun r hr => rowHighlight_wp_false r (h r hr)
  refine ⟨key, ?_⟩
  unfold mismatchCount
  rw [List.length_eq_zero, List.filter_eq_nil_iff]
  intro a ha
  simp [key a ha]

/-- C2 witness: the amended statement applied to the singleton list holding
the WORK PERMIT row with an empty expiry. -/
theorem c2_amended_witness :
    (∀ r ∈ [wpRow], rowHighlight r = false) ∧ mismatchCount [wpRow] = 0 :=
  c2_amended [wpRow] (by decide)

/-- C3: the displacement correction is a single workbook-wide decision made
on the filtered, sorted table: if any row's IC cell (stringified) contains a
hyphen, every output row's IC suffix is the last-4 truncation of the other
column's raw value and every output expiry is the date coercion of the IC
column's raw value (swap before truncation and date formatting); if no row's
IC cell contains a hyphen, both columns are processed in place. -/
theorem c3_swap_global (rows : List Row) :
    ((∃ r ∈ sortedKept rows, '-' ∈ (pyStr r.icSuffix).data) →
      (clean_data rows).map (fun c => c.icSuffix) =
        (sortedKept rows).map (fun r => pyLast4 (pyStr r.permitExpiry)) ∧
      (clean_data rows).map (fun c => c.permitExpiry) =
        (sortedKept rows).map (fun r => formatDate r.icSuffix)) ∧
    ((∀ r ∈ sortedKept rows, ¬ ('-' ∈ (pyStr r.icSuffix).data)) →
      (clean_data rows).map (fun c => c.icSuffix) =
        (sortedKept rows).map (fun r => pyLast4 (pyStr r.icSuffix)) ∧
      (clean_data rows).map (fun c => c.permitExpiry) =
        (sortedKept rows).map (fun r => formatDate r.permitExpiry)) := by
  constructor
  · intro hex
    have hs : swapNeeded (sortedKept rows) = true := (swapNeeded_iff _).mpr hex
    constructor
    · have h1 := clean_data_icSuffix rows
      rw [hs] at h1
      simpa using h1
    · have h1 := clean_data_permitExpiry rows
      rw [hs] at h1
      simpa using h1
  · intro hall
    have hs : swapNeeded (sortedKept rows) = false := by
      cases h' : swapNeeded (sortedKept rows)
      · rfl
      · obtain ⟨r, hr, hmem⟩ := (swapNeeded_iff _).mp h'
        exact absurd hmem (hall r hr)
    constructor
    · have h1 := clean_data_icSuffix rows
      rw [hs] at h1
      simpa using h1
    · have h1 := clean_data_permitExpiry rows
      rw [hs] at h1
      simpa using h1

/-- C3 witness: the swap branch applied to a table whose IC column holds a
date. -/
theorem c3_swap_global_witness :
    (∃ r ∈ sortedKept [icRow1], '-' ∈ (pyStr r.icSuffix).data) ∧
    (clean_data [icRow1]).map (fun c => c.icSuffix) =
      (sortedKept [icRow1]).map (fun r => pyLast4 (pyStr r.permitExpiry)) := by
  have hex : ∃ r ∈ sortedKept [icRow1], '-' ∈ (pyStr r.icSuffix).data := by decide
  exact ⟨hex, ((c3_swap_global [icRow1]).1 hex).1⟩

/-- C4 counterexample: the claim predicts that a row entered with
nationality "Singaporean" lands in bucket 1 and hence sorts before a
Malaysia row of the same organization; the code buckets before
normalization, puts the "Singaporean" row in bucket 5, and sorts it after
the Malaysia row — even though its output nationality is "Singapore". -/
theorem c4_counterexample :
    (clean_data [rowSgp, rowMys]).map (fun c => c.fullName) ≠ ["Bob", "Alice"] ∧
    (clean_data [rowSgp, rowMys]).map (fun c => c.fullName) = ["Alice", "Bob"] ∧
    (clean_data [rowSgp, rowMys]).map (fun c => c.nationality) = ["Malaysia", "Singapore"] := by
  decide

/-- C4 (amended): the Sort/Group Engine runs before the Field Normalizers:
the bucket is computed from the raw (stringified, stripped, lower-cased)
nationality and PR cells, so a row entered as "Singaporean" with
non-affirmative residency is assigned bucket 5, not bucket 1, although its
output nationality is normalized to "Singapore". -/
theorem c4_amended (r : Row)
    (hnat : pyStr r.nationality = "Singaporean")
    (hpr1 : pyLower (pyStrip (pyStr r.pr)) ≠ "yes")
    (hpr2 : pyLower (pyStrip (pyStr r.pr)) ≠ "pr") :
    nationality_group r = 5 ∧ cleanNationality r.nationality = "Singapore" := by
  have hsome : r.nationality = some "Singaporean" := by
    cases hv : r.nationality with
    | none =>
      rw [hv] at hnat
      exact absurd hnat (by decide)
    | some s =>
      rw [hv] at hnat
      have hseq : s = "Singaporean" := hnat
      rw [hseq]
  constructor
  · have e : pyLower (pyStrip (pyStr r.nationality)) = "singaporean" := by
      rw [hnat]
      decide
    simp [nationality_group, e, hpr1, hpr2]
  · rw [hsome]
    decide

/-- C4 witness: the amended statement at the concrete "Singaporean" row. -/
theorem c4_amended_witness :
    nationality_group rowSgp = 5 ∧ cleanNationality rowSgp.nationality = "Singapore" :=
  c4_amended rowSgp (by decide) (by decide) (by decide)

/-- C5 counterexample: the claim says "1234" is left-padded to "00001234";
the code merely coerces the cell to a number and back to a string. -/
theorem c5_counterexample :
    cleanMobile (some "1234") = "1234" ∧ cleanMobile (some "1234") ≠ "00001234" := by
  decide

/-- C5 (amended): mobile cleaning coerces the cell to a number (missing and
non-numeric values become 0), truncates decimals, and stringifies the
integer; a digit string passes through as its numeral (leading zeros
dropped), with no last-8 truncation, no trailing-zero stripping and no
zero-padding. -/
theorem c5_amended :
    (∀ l : List Char, l ≠ [] → (∀ c ∈ l, isDigitChar c = true) →
      cleanMobile (some (String.mk l)) = toString (Int.ofNat (digitsVal l))) ∧
    cleanMobile none = "0" ∧
    cleanMobile (some "abc") = "0" ∧
    cleanMobile (some "98.76") = "98" ∧
    cleanMobile (some "1234") = "1234" ∧
    cleanMobile (some "6591234567") = "6591234567" := by
  refine ⟨?_, by decide, by decide, by decide, by decide, by decide⟩
  intro l hne hdig
  show (match parseToNumeric (String.mk l) with
    | some n => toString n
    | none => toString (0 : Int)) = toString (Int.ofNat (digitsVal l))
  rw [parseToNumeric_digits l hne hdig]

/-- C5 witness: the digit-passthrough branch of the amended statement at a
concrete digit string with a leading zero. -/
theorem c5_amended_witness :
    cleanMobile (some (String.mk ['0', '1', '2'])) = toString (Int.ofNat (digitsVal ['0', '1', '2'])) :=
  c5_amended.1 ['0', '1', '2'] (by decide) (by decide)

/-- C6 counterexample: nationality normalization is not idempotent — the
synonym lookup is by exact match before title-casing, so "chinese"
normalizes to "Chinese" once and to "China" twice. -/
theorem c6_counterexample :
    natNormalize (natNormalize "chinese") ≠ natNormalize "chinese" ∧
    natNormalize "chinese" = "Chinese" ∧
    natNormalize (natNormalize "chinese") = "China" := by
  decide

/-- C6 (amended): applying the normalization twice does reach a fixed point:
the third application changes nothing. -/
theorem c6_amended (s : String) :
    natNormalize (natNormalize (natNormalize s)) = natNormalize (natNormalize s) := by
  have h1 : natNormalize s = pyTitle (synLookup s) := rfl
  have htt : pyTitle (pyTitle (synLookup s)) = pyTitle (synLookup s) :=
    pyTitle_idem (synLookup s)
  rw [h1]
  revert htt
  generalize pyTitle (synLookup s) = t
  intro htt
  by_cases hc : t = "Chinese"
  · rw [hc]
    decide
  · by_cases hs2 : t = "Singaporean"
    · rw [hs2]
      decide
    · have hsl : synLookup t = t := by
        unfold synLookup
        rw [if_neg hc, if_neg hs2]
      have h2 : natNormalize t = t := by
        show pyTitle (synLookup t) = t
        rw [hsl, htt]
      rw [h2, h2]

/-- C7: after filtering, sorting and renumbering, the serial column of the
output is exactly 1..N in final row order, whatever serials the input had
(the input serial cells are never read). -/
theorem c7_serials (rows : List Row) :
    (clean_data rows).map (fun c => c.sn) = List.range' 1 ((clean_data rows).length) := by
  rw [clean_data_sn, length_clean_data]

/-- C7 witness: the serial invariant at a concrete two-row table. -/
theorem c7_serials_witness :
    (clean_data [rowSgp, rowMys]).map (fun c => c.sn) =
      List.range' 1 ((clean_data [rowSgp, rowMys]).length) :=
  c7_serials [rowSgp, rowMys]

/-- C8: the filter drops a row iff all ten visitor-detail cells (full name
through mobile) are empty — organization plays no part; dropped rows are
removed before sorting and normalization and never influence the output; an
organization-only row is dropped, a name-only row is kept. -/
theorem c8_row_filter :
    (∀ r : Row, keepRow r = false ↔
      (r.fullName = none ∧ r.firstName = none ∧ r.middleLastName = none ∧
       r.idType = none ∧ r.icSuffix = none ∧ r.permitExpiry = none ∧
       r.nationality = none ∧ r.pr = none ∧ r.gender = none ∧ r.mobile = none)) ∧
    (∀ (pre post : List Row) (r : Row), keepRow r = false →
      clean_data (pre ++ r :: post) = clean_data (pre ++ post)) ∧
    clean_data [orgOnlyRow] = [] ∧
    (clean_data [nameOnlyRow]).map (fun c => c.fullName) = ["Bob"] := by
  refine ⟨?_, ?_, by decide, by decide⟩
  · intro r
    simp [keepRow, Bool.or_eq_false_iff, isSome_eq_false_iff, and_assoc]
  · intro pre post r h
    have hf : (pre ++ r :: post).filter keepRow = (pre ++ post).filter keepRow := by
      rw [List.filter_append, List.filter_append, List.filter_cons_of_neg (by simp [h])]
    unfold clean_data sortedKept
    rw [hf]

/-- C8 witness: dropping the organization-only row anywhere leaves the
output unchanged. -/
theorem c8_row_filter_witness :
    clean_data ([] ++ orgOnlyRow :: [nameOnlyRow]) = clean_data ([] ++ [nameOnlyRow]) :=
  c8_row_filter.2.1 [] [nameOnlyRow] orgOnlyRow (by decide)

/-- C9: the gender normalizer at the failing input — the fallthrough branch
returns the stripped upper-cased value ("OTHER"), not the title-cased
passthrough ("Other") promised by its own docstring; the M/F/MALE/FEMALE
branches behave as documented. -/
theorem c9_gender_eval :
    clean_gender (some "other") = "OTHER" ∧
    clean_gender (some "other") ≠ pyTitle "other" ∧
    pyTitle "other" = "Other" ∧
    clean_gender (some "m") = "Male" ∧
    clean_gender (some " F ") = "Female" ∧
    clean_gender (some "male") = "Male" ∧
    clean_gender (some "FEMALE") = "Female" := by
  decide

/-- C10: a retained row whose full-name cell is empty is emitted with the
stringified missing value: full name "Nan", first name "Nan", rest of name
"" — shown for the transformation of any such row and end-to-end for a row
kept only by its mobile number. -/
theorem c10_nan_placeholder (r : Row) (doSwap : Bool) (n : Nat) (h : r.fullName = none) :
    (transformRow doSwap n r).fullName = "Nan" ∧
    (transformRow doSwap n r).firstName = "Nan" ∧
    (transformRow doSwap n r).middleLastName = "" ∧
    (clean_data [mobileOnlyRow]).map (fun c => (c.fullName, c.firstName, c.middleLastName)) =
      [("Nan", "Nan", "")] := by
  refine ⟨?_, ?_, ?_, by decide⟩
  · show pyTitle (pyStr r.fullName) = "Nan"
    rw [h]
    decide
  · show (split_name (pyTitle (pyStr r.fullName))).1 = "Nan"
    rw [h]
    decide
  · show (split_name (pyTitle (pyStr r.fullName))).2 = ""
    rw [h]
    decide

/-- C10 witness: the placeholder behaviour at the mobile-only row. -/
theorem c10_nan_placeholder_witness :
    (transformRow false 1 mobileOnlyRow).fullName = "Nan" ∧
    (transformRow false 1 mobileOnlyRow).firstName = "Nan" ∧
    (transformRow false 1 mobileOnlyRow).middleLastName = "" ∧
    (clean_data [mobileOnlyRow]).map (fun c => (c.fullName, c.firstName, c.middleLastName)) =
      [("Nan", "Nan", "")] :=
  c10_nan_placeholder mobileOnlyRow false 1 rfl
